import Mathlib

/-!
Verification development for the PenArray backend's orchestration core.

The definitions below are a shallow embedding of the Python sources:
  * `backend/core/state.py`           (`merge_dicts`, `EssayState`, style constants)
  * `backend/utils/text_tools.py`     (`count_chinese_chars`, `analyze_essay_length`,
                                       `check_essay_structure`)
  * `backend/core/agents/grader.py`   (`parse_grader_response`, score component)
  * `backend/core/agents/reviewer.py` (`reviewer_node`, `get_routing_decision`)
  * `backend/core/agents/aggregator.py` (`aggregator_node`)
  * `backend/core/graph.py`           (conditional-edge wiring)

Python strings are `String`, Python dicts are modelled extensionally as
`String → Option α` (Python `dict.__eq__` is key/value equality, which matches
function extensionality), Python ints are `Int` (or `Nat` where the source can
only produce non-negative values), Python floats produced by `/` are `ℚ`.
Side-effecting SSE publications are modelled as a list of emitted events
returned alongside the node's state update.
-/

/-- Models Python's whitespace class (regex `\s` and `str.strip`) on the
code points relevant to this code base: ASCII whitespace, NEL, NBSP, ogham
space, the general punctuation spaces, line/paragraph separators, narrow
and mathematical spaces, and the ideographic space U+3000. -/
def pyIsSpace (c : Char) : Bool :=
  decide (c = ' ') || decide (c = '\t') || decide (c = '\n') || decide (c = '\x0d') ||
  decide (c = '\x0b') || decide (c = '\x0c') ||
  (decide ('\x1c' ≤ c) && decide (c ≤ '\x1f')) ||
  decide (c = '\x85') || decide (c = '\xa0') || decide (c = ' ') ||
  (decide (' ' ≤ c) && decide (c ≤ ' ')) ||
  decide (c = ' ') || decide (c = ' ') || decide (c = ' ') ||
  decide (c = ' ') || decide (c = '　')

/-- Models Python's `str.isalpha` on the code points this development uses.
Crucially, Python's `isalpha` is `True` on CJK unified ideographs (Unicode
category Lo), not only on Latin letters; this drives the behaviour of the
letter-run loop in `count_chinese_chars`.  Ranges modelled: ASCII letters,
Latin-1/Latin-extended letters (minus `×` and `÷`), Greek letters, and the
CJK unified ideographs U+4E00–U+9FFF.  Code points outside these ranges do
not occur in the inputs considered here. -/
def pyIsAlpha (c : Char) : Bool :=
  (decide ('a' ≤ c) && decide (c ≤ 'z')) ||
  (decide ('A' ≤ c) && decide (c ≤ 'Z')) ||
  (decide ('\xc0' ≤ c) && decide (c ≤ 'ɏ') && !(decide (c = '\xd7')) && !(decide (c = '\xf7'))) ||
  (decide ('Α' ≤ c) && decide (c ≤ 'ω')) ||
  (decide ('一' ≤ c) && decide (c ≤ '鿿'))

/-- Models Python's `str.isdigit` (and regex `\d`) on the code points used
here: ASCII digits and fullwidth digits U+FF10–U+FF19. -/
def pyIsDigit (c : Char) : Bool :=
  (decide ('0' ≤ c) && decide (c ≤ '9')) ||
  (decide ('０' ≤ c) && decide (c ≤ '９'))

/-- Models Python's `str.upper` for the ASCII strings it is applied to here
(`Char.toUpper` upcases exactly `a`–`z` and leaves everything else alone). -/
def pyUpper (s : String) : String :=
  String.mk (s.data.map Char.toUpper)

/-- Both-ends whitespace strip on a character list, modelling `str.strip()`. -/
def pyStripList (l : List Char) : List Char :=
  ((l.dropWhile pyIsSpace).reverse.dropWhile pyIsSpace).reverse

/-- Models Python's `str.strip()`. -/
def pyStrip (s : String) : String :=
  String.mk (pyStripList s.data)

/-- Does `l` start with `pre`?  Helper for substring containment. -/
def listStartsWith : List Char → List Char → Bool
  | _, [] => true
  | [], _ :: _ => false
  | a :: as, b :: bs => decide (a = b) && listStartsWith as bs

/-- Substring containment on character lists, modelling Python's `in`. -/
def listContainsSub (sub : List Char) : List Char → Bool
  | [] => listStartsWith [] sub
  | c :: t => listStartsWith (c :: t) sub || listContainsSub sub t

/-- Models Python's `needle in haystack` substring test. -/
def pyContains (haystack needle : String) : Bool :=
  listContainsSub needle.data haystack.data

/-- Numeric value of a digit list, modelling Python's `int(...)` on a
matched digit group (fullwidth digits also carry their decimal value). -/
def digitsVal (l : List Char) : Nat :=
  l.foldl (fun acc c =>
    acc * 10 + (if decide ('０' ≤ c) && decide (c ≤ '９')
                then c.toNat - 0xff10 else c.toNat - 0x30)) 0

/-- Extensional model of a Python `dict` with string keys: Python dict
equality is key/value equality, which coincides with function
extensionality for this representation. -/
abbrev PyDict (α : Type) : Type := String → Option α

/-- The empty dict `{}`. -/
def dictEmpty {α : Type} : PyDict α := fun _ => none

/-- The singleton dict `{k: v}`. -/
def dictSingle {α : Type} (k : String) (v : α) : PyDict α :=
  fun q => if q = k then some v else none

/-- The two-entry dict `{a: x, b: y}` (meaningful when `a ≠ b`). -/
def dictPair {α : Type} (a : String) (x : α) (b : String) (y : α) : PyDict α :=
  fun q => if q = a then some x else if q = b then some y else none

/-- Models Python's `d.get(k, default)`. -/
def dictGet {α : Type} (d : PyDict α) (k : String) (d0 : α) : α :=
  (d k).getD d0

/-- Embeds `merge_dicts` from `backend/core/state.py`: `None` arguments are
replaced by `{}`, then the result is `{**a, **b}` — the key-union of both
dicts with `b`'s value winning on shared keys. -/
def merge_dicts {α : Type} (a b : Option (PyDict α)) : PyDict α :=
  let a0 := a.getD dictEmpty
  let b0 := b.getD dictEmpty
  fun k =>
    match b0 k with
    | some v => some v
    | none => a0 k

/-- CJK unified ideograph test from `count_chinese_chars`:
`'一' <= char <= '鿿'`. -/
def isCJK (c : Char) : Bool :=
  decide ('一' ≤ c) && decide (c ≤ '鿿')

/-- The "Chinese punctuation" membership string of `count_chinese_chars`,
line 65 of `text_tools.py`.  In the Python source the two ASCII apostrophes
inside the literal are string delimiters (adjacent-literal concatenation),
so the evaluated string contains the ASCII double quote twice and no
apostrophe; this list reproduces the evaluated value character for
character. -/
def chinesePunct : List Char :=
  ['，', '。', '！', '？', '；', '：', '"', '"', '【', '】', '（', '）',
   '《', '》', '、', '…', '—', '～', '·']

/-- The ASCII/other punctuation membership string of `count_chinese_chars`,
line 85 of `text_tools.py`. -/
def asciiPunct : List Char :=
  ['.', ',', '!', '?', ';', ':', '\x27', '"', '(', ')', '[', ']', '\x7b',
   '\x7d', '/', '-', '_', '@', '#', '$', '%', '^', '&', '*', '+', '=',
   '<', '>', '|', '\\', '\x60', '~']

/-- Models `re.sub(r'\s+', '', text)`: removal of every whitespace
character. -/
def stripAllWhitespace (l : List Char) : List Char :=
  l.filter (fun c => !(pyIsSpace c))

/-- The index-based `while` loop of `count_chinese_chars`, with the two
inner run-consuming loops expressed as the flags `inAlpha` / `inDigit`:
when `inAlpha` is set the previous character belonged to a letter run and
any further `isalpha` character is consumed without counting (this is the
inner `while text[j].isalpha()` loop — note it consumes CJK ideographs as
well, since Python's `isalpha` is true on them), and symmetrically for
digit runs.  On a fresh character the branch order of the source is
mirrored: CJK ideograph, Chinese punctuation, letter (starts a run), digit
(starts a run), listed ASCII punctuation, then the catch-all. -/
def countUnitsLoop (inAlpha inDigit : Bool) : List Char → Nat
  | [] => 0
  | c :: rest =>
    if inAlpha && pyIsAlpha c then countUnitsLoop true false rest
    else if inDigit && pyIsDigit c then countUnitsLoop false true rest
    else if isCJK c then 1 + countUnitsLoop false false rest
    else if c ∈ chinesePunct then 1 + countUnitsLoop false false rest
    else if pyIsAlpha c then 1 + countUnitsLoop true false rest
    else if pyIsDigit c then 1 + countUnitsLoop false true rest
    else if c ∈ asciiPunct then 1 + countUnitsLoop false false rest
    else 1 + countUnitsLoop false false rest

/-- Embeds `count_chinese_chars` from `backend/utils/text_tools.py`:
empty text counts 0; otherwise all whitespace is removed and the unit
counting loop runs over the remaining characters. -/
def count_chinese_chars (text : String) : Nat :=
  if text = "" then 0
  else countUnitsLoop false false (stripAllWhitespace text.data)

/-- Embeds `analyze_essay_length` from `backend/utils/text_tools.py`.
The Python signature defaults `target_min`/`target_max` to 850/1050; here
they are explicit arguments.  The tolerance ceiling 1100 is hard-coded in
the source.  The trim/expand amounts are `Int`-valued as in Python, and the
suggestion strings are reproduced verbatim (Python `str(int)` and Lean
`toString` agree). -/
def analyze_essay_length (text : String) (target_min target_max : Nat) :
    Nat × String × String :=
  let count := count_chinese_chars text
  if target_min ≤ count ∧ count ≤ target_max then (count, "pass", "")
  else if target_max < count ∧ count ≤ 1100 then (count, "tolerate", "")
  else if 1100 < count then
    let excess : Int := (count : Int) - (target_max : Int)
    (count, "fail",
      "当前字数" ++ toString count ++ "字，需要删减至" ++ toString target_min ++
      "-" ++ toString target_max ++ "字范围内。建议删减约" ++
      toString (excess - 50) ++ "-" ++ toString excess ++ "字。")
  else if count < target_min then
    let deficit : Int := (target_min : Int) - (count : Int)
    (count, "fail",
      "当前字数" ++ toString count ++ "字，需要扩展至" ++ toString target_min ++
      "-" ++ toString target_max ++ "字范围内。建议增加约" ++
      toString deficit ++ "-" ++ toString (deficit + 100) ++ "字。")
  else (count, "pass", "")

/-- Result record of `check_essay_structure`. -/
structure StructureCheck where
  has_introduction : Bool
  has_body : Bool
  has_conclusion : Bool
  is_complete : Bool
  feedback : String
deriving Repr, DecidableEq

/-- Introduction keyword markers from `check_essay_structure`. -/
def intro_markers : List String :=
  ["引言", "开篇", "首先", "众所周知", "当今", "随着", "在这个"]

/-- Body keyword markers from `check_essay_structure`. -/
def body_markers : List String :=
  ["首先", "其次", "再次", "此外", "另外", "同时", "一方面", "另一方面",
   "不仅", "而且"]

/-- Conclusion keyword markers from `check_essay_structure`. -/
def conclusion_markers : List String :=
  ["综上所述", "总之", "因此", "由此可见", "总而言之", "归根结底", "最后"]

/-- Structural model of Python's `str.split('\n')` on character lists:
split at every newline, keeping empty pieces (no collapsing); the empty
string yields one empty piece. -/
def splitOnNewline : List Char → List (List Char)
  | [] => [[]]
  | c :: t =>
    let r := splitOnNewline t
    if c = '\n' then [] :: r
    else (c :: r.headD []) :: r.tail

/-- Models Python's `text.split('\n')`. -/
def pySplitNewline (s : String) : List String :=
  (splitOnNewline s.data).map String.mk

/-- The paragraph split of `check_essay_structure`:
`[p.strip() for p in text.split('\n') if p.strip()]`. -/
def splitParagraphs (text : String) : List String :=
  ((pySplitNewline text).map pyStrip).filter (fun p => p ≠ "")

/-- Embeds `check_essay_structure` from `backend/utils/text_tools.py`.
Paragraph lengths use Python `len`, i.e. the raw code-point count
(`String.length`). -/
def check_essay_structure (text : String) : StructureCheck :=
  let paragraphs := splitParagraphs text
  if paragraphs.length < 3 then
    { has_introduction := false, has_body := false, has_conclusion := false,
      is_complete := false,
      feedback := "文章段落不足，缺少完整的开头、主体、结尾结构。" }
  else
    let first_para := paragraphs.headD ""
    let hasIntro :=
      intro_markers.any (fun m => pyContains first_para m) ||
      decide (50 ≤ first_para.length)
    let body_text := String.intercalate "\n" ((paragraphs.drop 1).dropLast)
    let hasBody :=
      decide (3 ≤ paragraphs.length) &&
      (body_markers.any (fun m => pyContains body_text m) ||
       decide (300 ≤ body_text.length))
    let last_para := paragraphs.getLastD ""
    let hasConcl :=
      conclusion_markers.any (fun m => pyContains last_para m) ||
      (decide (50 ≤ last_para.length) && decide (3 ≤ paragraphs.length))
    let complete := hasIntro && hasBody && hasConcl
    let missing :=
      (if hasIntro then [] else ["开头"]) ++
      (if hasBody then [] else ["主体"]) ++
      (if hasConcl then [] else ["结尾"])
    { has_introduction := hasIntro, has_body := hasBody,
      has_conclusion := hasConcl, is_complete := complete,
      feedback :=
        if complete then ""
        else "文章结构不完整，缺少：" ++ String.intercalate ", " missing ++ "。" }

/-- Leftmost match of the regex `总分[：:]\s*(\d+)` on a character list:
scan left to right; at each position try to read `总分`, one of `：`/`:`,
greedy whitespace, then a non-empty greedy digit run whose value is the
group.  (Only the maximal digit run can match since the pattern ends with
the group.) -/
def zongfenScan : List Char → Option Nat
  | [] => none
  | c :: rest =>
    match c :: rest with
    | c1 :: c2 :: c3 :: rest3 =>
      if decide (c1 = '总') && decide (c2 = '分') &&
         (decide (c3 = '：') || decide (c3 = ':')) then
        let afterWs := rest3.dropWhile pyIsSpace
        let run := afterWs.takeWhile pyIsDigit
        if run = [] then zongfenScan rest else some (digitsVal run)
      else zongfenScan rest
    | _ => none

/-- Leftmost match of the regex `(\d+)\s*[分/]` on a character list: at
each digit position take the maximal digit run from there, skip greedy
whitespace, and require `分` or `/`.  A shorter digit prefix can never
match (the next character would be a digit, which is neither whitespace
nor `分`/`/`), so this scan is equivalent to the backtracking regex
search; failed starts advance by one character, which correctly also
tries suffixes of a digit run. -/
def bareScoreScan : List Char → Option Nat
  | [] => none
  | c :: rest =>
    if pyIsDigit c then
      let run := c :: rest.takeWhile pyIsDigit
      let after := (rest.dropWhile pyIsDigit).dropWhile pyIsSpace
      match after with
      | d :: _ =>
        if decide (d = '分') || decide (d = '/') then some (digitsVal run)
        else bareScoreScan rest
      | [] => bareScoreScan rest
    else bareScoreScan rest

/-- One iteration of the `for line in lines` loop of
`parse_grader_response`: the line is stripped; a `总分` match overwrites
the score unconditionally (and `continue`s); otherwise a bare
`N分`/`N/60`-style match is taken only when the current score is falsy
(`not score`, i.e. 0) and the value lies in `[0, 60]`. -/
def gradeLineStep (score : Int) (line : String) : Int :=
  let l := (pyStrip line).data
  match zongfenScan l with
  | some n => (n : Int)
  | none =>
    match bareScoreScan l with
    | some n =>
      if score = 0 ∧ 0 ≤ (n : Int) ∧ (n : Int) ≤ 60 then (n : Int) else score
    | none => score

/-- The line fold of `parse_grader_response` starting from `score = 0`. -/
def gradeLinesFold (response : String) : Int :=
  (pySplitNewline response).foldl gradeLineStep 0

/-- Embeds the score component of `parse_grader_response` from
`backend/core/agents/grader.py`: fold the score-pattern matching over the
lines, then replace a final score outside `[0, 60]` by the default 45.
The critique component of the Python function is independent of the score
and is not modelled (no claim mentions it). -/
def parse_grader_score (response : String) : Int :=
  let score := gradeLinesFold response
  if score < 0 ∨ 60 < score then 45 else score

/-- Style constant from `backend/core/state.py`. -/
def STYLE_PROFOUND : String := "profound"

/-- Style constant from `backend/core/state.py`. -/
def STYLE_RHETORICAL : String := "rhetorical"

/-- Style constant from `backend/core/state.py`. -/
def STYLE_STEADY : String := "steady"

/-- The fixed style order from `backend/core/state.py`. -/
def ALL_STYLES : List String := [STYLE_PROFOUND, STYLE_RHETORICAL, STYLE_STEADY]

/-- The fields of the `EssayState` TypedDict that the nodes considered here
read.  Keyed-by-style maps are `PyDict`s; a missing key is `none`.  Scores
are Python ints. -/
structure EssayState where
  task_id : Option Nat
  topic : String
  drafts : PyDict String
  titles : PyDict String
  scores : PyDict Int
  critiques : PyDict String
  errors : List String
  revision_count : PyDict Nat
  reviewer_comments : PyDict String
  clean_word_counts : PyDict Nat
  reviewer_decisions : PyDict String

/-- A state with no entries anywhere, used to build concrete test states. -/
def emptyState : EssayState :=
  { task_id := none, topic := "", drafts := dictEmpty, titles := dictEmpty,
    scores := dictEmpty, critiques := dictEmpty, errors := [],
    revision_count := dictEmpty, reviewer_comments := dictEmpty,
    clean_word_counts := dictEmpty, reviewer_decisions := dictEmpty }

/-- Structured payload of a published SSE event (the `data` keyword
argument of `publish_sse_event`): either the error list of the
aggregation-failure event or the summary of the full-success event.  The
`avg_score` in the summary is the Python float `total/3`, modelled
exactly as a rational. -/
inductive EventData where
  | errorList (errors : List String)
  | summary (avg_score : ℚ) (best_style : String) (best_score : Int)
deriving Repr, DecidableEq

/-- A published SSE event: `publish_sse_event(task_id, event_type, agent,
message, data)`.  Success-summary messages interpolate a `%.1f`-formatted
float; float formatting is not modelled, so the `message` of the
full-success event is recorded as `""` and its numeric content lives in
`data`. -/
structure SSEEvent where
  event_type : String
  agent : String
  message : String
  data : Option EventData
deriving Repr, DecidableEq

/-- The Chinese display name of a style, from the `style_names` dicts of
`aggregator.py` and `reviewer.py` (the aggregator only ever looks up
members of `ALL_STYLES`; the reviewer's dict lookup defaults to `""`). -/
def styleCN (s : String) : String :=
  if s = STYLE_PROFOUND then "深刻型"
  else if s = STYLE_RHETORICAL then "文采型"
  else if s = STYLE_STEADY then "稳健型"
  else ""

/-- Models Python's `max(l, key=key)` for string lists: the first element
attaining the maximal key wins, because `max` only replaces the current
best when strictly exceeded.  Python raises on an empty list; this is only
applied to the non-empty `ALL_STYLES`, so the `[]` case returns `""`. -/
def pyMaxByKey (key : String → Int) : List String → String
  | [] => ""
  | x :: xs => xs.foldl (fun acc y => if key acc < key y then y else acc) x

/-- The state update returned by the aggregator, together with the events
it published: an `errors` key is present (`some`) or absent (`none`)
depending on the branch taken. -/
structure AggregatorUpdate where
  errors : Option (List String)
  current_agent : Option String
  events : List SSEEvent
deriving Repr, DecidableEq

/-- The per-branch success classification of `aggregator_node`:
`if draft and len(draft) > 100` — non-empty and raw character count
(Python `len`) strictly greater than 100. -/
def aggSuccessful (draft : String) : Bool :=
  !(decide (draft = "")) && decide (100 < draft.length)

/-- Embeds `aggregator_node` from `backend/core/agents/aggregator.py`.
Events are published only when `task_id` is present, mirroring the
`if task_id:` guards.  The validation loop is expressed as two filters
over `ALL_STYLES`, which produce the same `successful_styles`,
`failed_styles` and `validation_errors` lists in the same order as the
single Python loop. -/
def aggregator_node (state : EssayState) : AggregatorUpdate :=
  let drafts := state.drafts
  let scores := state.scores
  let errors := state.errors
  let startEvents : List SSEEvent :=
    match state.task_id with
    | some _ => [⟨"progress", "aggregator", "正在汇总所有生成结果...", none⟩]
    | none => []
  let successful_styles := ALL_STYLES.filter (fun s => aggSuccessful (dictGet drafts s ""))
  let failed_styles := ALL_STYLES.filter (fun s => !(aggSuccessful (dictGet drafts s "")))
  let validation_errors :=
    failed_styles.map (fun s => "Style \x27" ++ s ++ "\x27 has no valid content")
  if successful_styles.length = 0 then
    let ev : List SSEEvent :=
      match state.task_id with
      | some _ => [⟨"error", "aggregator", "生成失败：未能生成任何作文",
                    some (.errorList (errors ++ validation_errors))⟩]
      | none => []
    { errors := some (errors ++ validation_errors ++
        ["All writers failed to produce content"]),
      current_agent := some "aggregator", events := startEvents ++ ev }
  else if successful_styles.length < 3 then
    let success_names := successful_styles.map styleCN
    let failed_names := failed_styles.map styleCN
    let ev : List SSEEvent :=
      match state.task_id with
      | some _ => [⟨"progress", "aggregator",
                    "部分成功：" ++ String.intercalate ", " success_names ++
                    " 生成完成，" ++ String.intercalate ", " failed_names ++
                    " 生成失败", none⟩]
      | none => []
    { errors := some (errors ++ validation_errors),
      current_agent := some "aggregator", events := startEvents ++ ev }
  else
    let total_score : Int := (ALL_STYLES.map (fun s => dictGet scores s 0)).sum
    let avg_score : ℚ := if 0 < total_score then (total_score : ℚ) / 3 else 0
    let best_style := pyMaxByKey (fun s => dictGet scores s 0) ALL_STYLES
    let best_score := dictGet scores best_style 0
    let ev : List SSEEvent :=
      match state.task_id with
      | some _ => [⟨"end", "aggregator", "",
                    some (.summary avg_score best_style best_score)⟩]
      | none => []
    { errors := none, current_agent := some "aggregator",
      events := startEvents ++ ev }

/-- Maximum revision loops before forced acceptance
(`MAX_REVISION_LOOPS` in `reviewer.py`). -/
def MAX_REVISION_LOOPS : Nat := 3

/-- The agent name for a style's reviewer node, from the `style_names`
dict of `create_reviewer_node` (default `"reviewer"`). -/
def reviewer_agent_name (style : String) : String :=
  if style = STYLE_PROFOUND then "reviewer_profound"
  else if style = STYLE_RHETORICAL then "reviewer_rhetorical"
  else if style = STYLE_STEADY then "reviewer_steady"
  else "reviewer"

/-- The Chinese action name used in the reviewer's completion event
(`action_cn`), defaulting to the action itself. -/
def actionCN (action : String) : String :=
  if action = "ACCEPT" then "通过"
  else if action = "REVISE" then "需要小修"
  else if action = "REWRITE" then "需要重写"
  else action

/-- The state update returned by a reviewer node, together with the events
it published.  The Python node returns singleton dicts
`{style: decision}`, `{style: comments}`, `{style: count}`,
`{style: word_count}`; since the key is always the node's own style, the
values are recorded directly.  `clean_word_count` and `current_agent` are
`none` on the paths whose return dict omits those keys, and `errors` is
`[]` when the `"errors"` key is absent. -/
structure ReviewerUpdate where
  decision : String
  comment : String
  revision_count : Nat
  clean_word_count : Option Nat
  errors : List String
  current_agent : Option String
  events : List SSEEvent
deriving Repr, DecidableEq

/-- Embeds the `reviewer_node` closure of `create_reviewer_node` from
`backend/core/agents/reviewer.py`.  The opaque collaborators inside the
`try` block — prompt loading, the DeepSeek model call and
`parse_reviewer_response` — are abstracted into the `modelOutcome`
argument: `.ok (action, comments)` is the parsed decision and comment text
obtained from the model's response (the parser only ever yields an action
in `{ACCEPT, REVISE, REWRITE}`, but nothing below relies on that), and
`.error e` is the exception message when any step of the `try` block
raises.  The completion event's message elides the `{confidence:.0%}`
suffix (float formatting is not modelled); no claim reads that message. -/
def reviewer_node (style : String) (state : EssayState)
    (modelOutcome : Except String (String × String)) : ReviewerUpdate :=
  let style_cn := styleCN style
  let agent_name := reviewer_agent_name style
  let essay_content := dictGet state.drafts style ""
  let word_count0 := dictGet state.clean_word_counts style 0
  let current_revision_count := dictGet state.revision_count style 0
  let word_count :=
    if word_count0 = 0 then count_chinese_chars essay_content else word_count0
  let startEvents : List SSEEvent :=
    match state.task_id with
    | some _ => [⟨"progress", agent_name, "正在审核" ++ style_cn ++ "作文...", none⟩]
    | none => []
  if essay_content = "" then
    { decision := "ACCEPT", comment := "无内容可审核",
      revision_count := current_revision_count, clean_word_count := none,
      errors := ["Reviewer_" ++ style ++ ": No essay content to review"],
      current_agent := none, events := startEvents }
  else if MAX_REVISION_LOOPS ≤ current_revision_count then
    let forcedEv : List SSEEvent :=
      match state.task_id with
      | some _ => [⟨"progress", agent_name,
                    style_cn ++ "已达最大修订次数（" ++ toString MAX_REVISION_LOOPS ++
                    "轮），强制通过。", none⟩]
      | none => []
    { decision := "ACCEPT",
      comment := "已达到最大修订次数（" ++ toString MAX_REVISION_LOOPS ++
                 "轮），强制通过审核。",
      revision_count := current_revision_count, clean_word_count := none,
      errors := [], current_agent := some agent_name,
      events := startEvents ++ forcedEv }
  else
    match modelOutcome with
    | .error e =>
      let errEv : List SSEEvent :=
        match state.task_id with
        | some _ => [⟨"error", agent_name, style_cn ++ "审核失败: " ++ e, none⟩]
        | none => []
      { decision := "ACCEPT", comment := "审核出错: " ++ e,
        revision_count := current_revision_count, clean_word_count := none,
        errors := ["Reviewer_" ++ style ++ " failed: " ++ e],
        current_agent := none, events := startEvents ++ errEv }
    | .ok (action0, comments0) =>
      let structure_check := check_essay_structure essay_content
      let step1 : String × String :=
        if !structure_check.is_complete && decide (action0 = "ACCEPT") then
          ("REVISE", "结构不完整：" ++ structure_check.feedback ++ "\n" ++ comments0)
        else (action0, comments0)
      let step2 : String × String :=
        if decide (2 ≤ current_revision_count) && decide (step1.1 = "REWRITE") then
          ("REVISE", "[已修订" ++ toString current_revision_count ++
           "轮，降级为小修]\n" ++ step1.2)
        else step1
      let new_revision_count := current_revision_count + 1
      let doneEv : List SSEEvent :=
        match state.task_id with
        | some _ => [⟨"progress", agent_name,
                      style_cn ++ "作文审核完成：" ++ actionCN step2.1, none⟩]
        | none => []
      { decision := step2.1, comment := step2.2,
        revision_count := new_revision_count,
        clean_word_count := some word_count, errors := [],
        current_agent := some agent_name, events := startEvents ++ doneEv }

/-- Embeds `get_routing_decision` from `backend/core/agents/reviewer.py`:
`decisions.get(style, "ACCEPT").upper()`, then `REWRITE → "rewrite"`,
`REVISE → "revise"`, anything else → `"accept"`. -/
def get_routing_decision (state : EssayState) (style : String) : String :=
  let decision := pyUpper (dictGet state.reviewer_decisions style "ACCEPT")
  if decision = "REWRITE" then "rewrite"
  else if decision = "REVISE" then "revise"
  else "accept"

/-- Embeds the conditional-edge target dicts of `create_workflow` in
`backend/core/graph.py`: for each style the router label `"accept"` maps
to the `aggregator` node, `"revise"` to that style's reviser node and
`"rewrite"` to that style's writer node (the source writes the three
per-style dicts with the literal node names `reviser_profound`,
`writer_profound`, and so on, which coincide with this parametrised
form). -/
def routing_map (style : String) : PyDict String :=
  fun label =>
    if label = "accept" then some "aggregator"
    else if label = "revise" then some ("reviser_" ++ style)
    else if label = "rewrite" then some ("writer_" ++ style)
    else none

/-- The `total_score` computation of `aggregator_node`'s full-success
branch: `sum(scores.get(style, 0) for style in ALL_STYLES)`. -/
def agg_total_score (state : EssayState) : Int :=
  (ALL_STYLES.map (fun s => dictGet state.scores s 0)).sum

/-- The `best_style` computation of `aggregator_node`'s full-success
branch: `max(ALL_STYLES, key=lambda s: scores.get(s, 0))`. -/
def agg_best_style (state : EssayState) : String :=
  pyMaxByKey (fun s => dictGet state.scores s 0) ALL_STYLES

/-- A 1200-ideograph essay, counting exactly 1200 units. -/
def longText1200 : String := String.mk (List.replicate 1200 '人')

/-- A draft of 101 Latin letters: 101 raw characters but a single counting
unit (one maximal letter run). -/
def draft101a : String := String.mk (List.replicate 101 'a')

/-- A draft of 101 ideographs: 101 raw characters and 101 counting units. -/
def bigCJK101 : String := String.mk (List.replicate 101 '人')

/-- Concrete state for the C5 counterexample: only the profound draft is
present and it is a single 101-letter word. -/
def stateC5x : EssayState :=
  { emptyState with
    task_id := some 1,
    drafts := dictSingle "profound" draft101a }

/-- Concrete state with exactly two viable drafts (C5 witness). -/
def stateC5w : EssayState :=
  { emptyState with
    task_id := some 1,
    drafts := dictPair "profound" bigCJK101 "rhetorical" bigCJK101 }

/-- Drafts for the C6 witness: all three branches viable. -/
def draftsC6w : PyDict String :=
  fun k =>
    if k = "profound" then some bigCJK101
    else if k = "rhetorical" then some bigCJK101
    else if k = "steady" then some bigCJK101
    else none

/-- Scores for the C6 witness: 40 / 55 / 50. -/
def scoresC6w : PyDict Int :=
  fun k =>
    if k = "profound" then some 40
    else if k = "rhetorical" then some 55
    else if k = "steady" then some 50
    else none

/-- Concrete full-success state for the C6 witness. -/
def stateC6w : EssayState :=
  { emptyState with
    task_id := some 1, drafts := draftsC6w, scores := scoresC6w }

/-- Concrete state for the C9 counterexample: the stored decision is the
lowercase string `"rewrite"`, not the literal `"REWRITE"`. -/
def stateC9x : EssayState :=
  { emptyState with reviewer_decisions := dictSingle "profound" "rewrite" }

/-- Concrete state for the C9 witness: no decision stored for `profound`. -/
def stateC9w : EssayState :=
  { emptyState with reviewer_decisions := dictSingle "steady" "REVISE" }

/-- Concrete state for the C1 witness: a non-empty profound draft whose
revision counter has reached the maximum. -/
def stateC1w : EssayState :=
  { emptyState with
    task_id := some 1,
    drafts := dictSingle "profound" "内容",
    revision_count := dictSingle "profound" 3 }

/-- Concrete state for the C8 witness, first downgrade rule: structurally
incomplete draft, revision counter 0. -/
def stateC8a : EssayState :=
  { emptyState with
    drafts := dictSingle "steady" "短文",
    revision_count := dictSingle "steady" 0 }

/-- Concrete state for the C8 witness, second downgrade rule: structurally
incomplete draft, revision counter 2. -/
def stateC8b : EssayState :=
  { emptyState with
    drafts := dictSingle "steady" "短文",
    revision_count := dictSingle "steady" 2 }

/-- Whitespace removal fixes a replicate of a non-whitespace character. -/
lemma stripAllWhitespace_replicate (c : Char) (h : pyIsSpace c = false) (n : Nat) :
    stripAllWhitespace (List.replicate n c) = List.replicate n c := by
  induction n with
  | zero => rfl
  | succ n ih =>
    simp only [List.replicate_succ, stripAllWhitespace, List.filter_cons, h,
      Bool.not_false, if_pos]
    simpa [stripAllWhitespace] using ih

/-- A CJK ideograph at a fresh position counts one unit and starts no run. -/
lemma countUnitsLoop_cjk_cons (c : Char) (l : List Char) (h : isCJK c = true) :
    countUnitsLoop false false (c :: l) = 1 + countUnitsLoop false false l := by
  simp [countUnitsLoop, h]

/-- CJK-only text counts one unit per character. -/
lemma countUnitsLoop_replicate_cjk (c : Char) (h : isCJK c = true) (n : Nat) :
    countUnitsLoop false false (List.replicate n c) = n := by
  induction n with
  | zero => rfl
  | succ n ih =>
    rw [List.replicate_succ, countUnitsLoop_cjk_cons c _ h, ih]
    omega

/-- Unit count of a non-empty all-CJK replicate string. -/
lemma count_chinese_chars_replicate_cjk (c : Char) (n : Nat)
    (hc : isCJK c = true) (hs : pyIsSpace c = false)
    (hne : String.mk (List.replicate n c) ≠ "") :
    count_chinese_chars (String.mk (List.replicate n c)) = n := by
  rw [count_chinese_chars, if_neg hne]
  show countUnitsLoop false false (stripAllWhitespace (List.replicate n c)) = n
  rw [stripAllWhitespace_replicate c hs, countUnitsLoop_replicate_cjk c hc]

/-- C2: `merge_dicts` is the shallow key-union with the update argument
winning on shared keys; in particular `merge({}, {a:x}) = {a:x}`,
`merge({a:x}, {b:y}) = {a:x, b:y}` for `a ≠ b`, and
`merge({a:x}, {a:y}) = {a:y}`. -/
theorem C2_merge_dicts {α : Type} (a b : String) (x y : α) :
    (∀ (d e : PyDict α) (k : String),
        merge_dicts (some d) (some e) k =
          match e k with
          | some v => some v
          | none => d k) ∧
    merge_dicts (some (dictEmpty : PyDict α)) (some (dictSingle a x)) = dictSingle a x ∧
    (a ≠ b →
      merge_dicts (some (dictSingle a x)) (some (dictSingle b y)) = dictPair a x b y) ∧
    merge_dicts (some (dictSingle a x)) (some (dictSingle a y)) = dictSingle a y := by
  refine ⟨fun d e k => rfl, ?_, ?_, ?_⟩
  · funext k
    show (match dictSingle a x k with
          | some v => some v
          | none => dictEmpty k) = dictSingle a x k
    by_cases h : k = a <;> simp [dictSingle, dictEmpty, h]
  · intro hab
    funext k
    show (match dictSingle b y k with
          | some v => some v
          | none => dictSingle a x k) = dictPair a x b y k
    by_cases hb : k = b <;> by_cases ha : k = a
    · exact absurd (ha.symm.trans hb) hab
    · simp [dictSingle, dictPair, ha, hb, Ne.symm hab]
    · simp [dictSingle, dictPair, ha, hb, hab]
    · simp [dictSingle, dictPair, ha, hb]
  · funext k
    show (match dictSingle a y k with
          | some v => some v
          | none => dictSingle a x k) = dictSingle a y k
    by_cases h : k = a <;> simp [dictSingle, h]

/-- Witness for C2 at concrete keys and values. -/
theorem C2_merge_dicts_witness :
    ("a" : String) ≠ "b" ∧
    merge_dicts (some (dictSingle "a" (1 : Nat))) (some (dictSingle "b" 2)) =
      dictPair "a" 1 "b" 2 :=
  ⟨by decide, (C2_merge_dicts "a" "b" 1 2).2.2.1 (by decide)⟩

/-- C3: evaluation of `count_chinese_chars` at the claim's concrete
example and at the failing input.  The claim, the spec and the function's
own docstring require `count_chinese_chars "Hello世界！" = 3` (one Latin
word, two ideographs, one punctuation mark), but the code returns 2: the
letter-run loop `while text[j].isalpha()` also consumes the CJK
ideographs `世界` (Python's `isalpha` is true on them), so `Hello世界`
collapses into a single unit.  The claim's own arithmetic example
`人生如梦，岁月如歌。 = 10` does hold. -/
theorem C3_count_units_divergence :
    count_chinese_chars "Hello世界！" = 2 ∧
    count_chinese_chars "人生如梦，岁月如歌。" = 10 := by
  constructor <;> decide

/-- C4: evaluation of `analyze_essay_length` at the claim's concrete
1200-unit input with the default band.  The claim (and the function's own
docstring, which promises `建议删减约150-350字` for this very input)
expects a suggested trim of ≈150–350 units, i.e. `C−MAX` to `C−MIN`; the
code computes `excess−50`–`excess` = 100–150 instead, an amount whose
lower end cannot reach the stated 850–1050 target band.  The status
literal is `"fail"` for both overlong and too-short texts (the claim's
"fail-too-long"/"fail-too-short" labels only distinguish the two
suggestion texts). -/
theorem C4_length_divergence :
    analyze_essay_length longText1200 850 1050 =
      (1200, "fail",
       "当前字数1200字，需要删减至850-1050字范围内。建议删减约100-150字。") := by
  have hne : longText1200 ≠ "" := by decide
  have hc : count_chinese_chars longText1200 = 1200 :=
    count_chinese_chars_replicate_cjk '人' 1200 (by decide) (by decide) hne
  rw [analyze_essay_length]
  rw [hc]
  norm_num
  rfl

/-- C5 counterexample: a draft of 101 Latin letters is a single counting
unit (far below 100 units), yet `aggregator_node` classifies it as
successful — its criterion is the raw character count (`len(draft) > 100`),
not the §4.2 unit count.  Consequently, on a state where by the claim's
criterion zero branches are successful, the code still takes the
partial-success branch and emits a progress-typed terminal event instead
of the error event the claim's classification would dictate. -/
theorem C5_agg_classification_counterexample :
    aggSuccessful draft101a = true ∧
    count_chinese_chars draft101a = 1 ∧
    (∀ s ∈ ALL_STYLES,
      ¬(dictGet stateC5x.drafts s "" ≠ "" ∧
        100 ≤ count_chinese_chars (dictGet stateC5x.drafts s ""))) ∧
    (aggregator_node stateC5x).events.map SSEEvent.event_type =
      ["progress", "progress"] := by
  refine ⟨by decide, by decide, by decide, by decide⟩

/-- C5 (amended): the aggregator classifies a branch successful exactly
when its draft is non-empty and its raw character count (Python `len`)
strictly exceeds 100 — not "at least 100 §4.2 units"; for every final
state with a task id in which exactly 2 of the 3 branches are successful,
it emits as terminal event a progress-typed "partial success" event naming
the succeeded and failed variants (not the error event and not the
full-success summary), and finalizes with the validation errors appended
to the error list. -/
theorem C5_partial_success (state : EssayState) (t : Nat)
    (htid : state.task_id = some t)
    (h2 : (ALL_STYLES.filter (fun s => aggSuccessful (dictGet state.drafts s ""))).length = 2) :
    (∀ d : String, aggSuccessful d = true ↔ (d ≠ "" ∧ 100 < d.length)) ∧
    (aggregator_node state).events =
      [⟨"progress", "aggregator", "正在汇总所有生成结果...", none⟩,
       ⟨"progress", "aggregator",
        "部分成功：" ++ String.intercalate ", "
            ((ALL_STYLES.filter (fun s => aggSuccessful (dictGet state.drafts s ""))).map styleCN) ++
        " 生成完成，" ++ String.intercalate ", "
            ((ALL_STYLES.filter (fun s => !(aggSuccessful (dictGet state.drafts s "")))).map styleCN) ++
        " 生成失败", none⟩] ∧
    (aggregator_node state).events.map SSEEvent.event_type = ["progress", "progress"] ∧
    (∀ e ∈ (aggregator_node state).events, e.event_type ≠ "error" ∧ e.data = none) ∧
    (aggregator_node state).errors =
      some (state.errors ++
        (ALL_STYLES.filter (fun s => !(aggSuccessful (dictGet state.drafts s "")))).map
          (fun s => "Style \x27" ++ s ++ "\x27 has no valid content")) := by
  have hagg : aggregator_node state =
      { errors := some (state.errors ++
          (ALL_STYLES.filter (fun s => !(aggSuccessful (dictGet state.drafts s "")))).map
            (fun s => "Style \x27" ++ s ++ "\x27 has no valid content")),
        current_agent := some "aggregator",
        events :=
          [⟨"progress", "aggregator", "正在汇总所有生成结果...", none⟩,
           ⟨"progress", "aggregator",
            "部分成功：" ++ String.intercalate ", "
                ((ALL_STYLES.filter (fun s => aggSuccessful (dictGet state.drafts s ""))).map styleCN) ++
            " 生成完成，" ++ String.intercalate ", "
                ((ALL_STYLES.filter (fun s => !(aggSuccessful (dictGet state.drafts s "")))).map styleCN) ++
            " 生成失败", none⟩] } := by
    simp only [aggregator_node, htid, h2]
    norm_num
  refine ⟨?_, ?_, ?_, ?_, ?_⟩
  · intro d
    simp [aggSuccessful]
  · rw [hagg]
  · rw [hagg]
    rfl
  · rw [hagg]
    intro e he
    simp only [List.mem_cons, List.mem_singleton] at he
    rcases he with rfl | rfl | h
    · exact ⟨by decide, rfl⟩
    · refine ⟨?_, rfl⟩
      show ("progress" : String) ≠ "error"
      decide
    · cases h
  · rw [hagg]

/-- Witness for C5 at a concrete state with exactly two viable drafts. -/
theorem C5_partial_success_witness :
    stateC5w.task_id = some 1 ∧
    (ALL_STYLES.filter (fun s => aggSuccessful (dictGet stateC5w.drafts s ""))).length = 2 ∧
    (aggregator_node stateC5w).events.map SSEEvent.event_type =
      ["progress", "progress"] :=
  ⟨rfl, by decide, (C5_partial_success stateC5w 1 rfl (by decide)).2.2.1⟩

/-- Closed form of Python's first-seen-wins `max` over a three-element
list. -/
lemma pyMaxByKey_three (key : String → Int) (a b c : String) :
    pyMaxByKey key [a, b, c] =
      if key a < key b then (if key b < key c then c else b)
      else (if key a < key c then c else a) := by
  simp only [pyMaxByKey, List.foldl]
  by_cases h1 : key a < key b <;> by_cases h2 : key b < key c <;>
    by_cases h3 : key a < key c <;> simp [h1, h2, h3]

/-- C6: when all three branches are successful, the aggregator emits a
terminal success (`end`) event whose payload carries the mean of the three
branch scores, the maximum-scoring branch with ties broken
first-seen-wins over the fixed style order, and that branch's score. -/
theorem C6_full_success (state : EssayState) (t : Nat)
    (htid : state.task_id = some t)
    (hsucc : ∀ s ∈ ALL_STYLES, aggSuccessful (dictGet state.drafts s "") = true)
    (hnn : ∀ s ∈ ALL_STYLES, 0 ≤ dictGet state.scores s 0) :
    (aggregator_node state).events =
      [⟨"progress", "aggregator", "正在汇总所有生成结果...", none⟩,
       ⟨"end", "aggregator", "",
        some (.summary ((agg_total_score state : ℚ) / 3) (agg_best_style state)
          (dictGet state.scores (agg_best_style state) 0))⟩] ∧
    agg_total_score state =
      dictGet state.scores "profound" 0 + dictGet state.scores "rhetorical" 0 +
        dictGet state.scores "steady" 0 ∧
    agg_best_style state ∈ ALL_STYLES ∧
    (∀ s ∈ ALL_STYLES,
        dictGet state.scores s 0 ≤ dictGet state.scores (agg_best_style state) 0) ∧
    (∀ s ∈ ALL_STYLES,
        dictGet state.scores s 0 = dictGet state.scores (agg_best_style state) 0 →
        ALL_STYLES.indexOf (agg_best_style state) ≤ ALL_STYLES.indexOf s) := by
  have hp := hsucc "profound" (by decide)
  have hr := hsucc "rhetorical" (by decide)
  have hs := hsucc "steady" (by decide)
  have hnp := hnn "profound" (by decide)
  have hnr := hnn "rhetorical" (by decide)
  have hns := hnn "steady" (by decide)
  have hfilter : (ALL_STYLES.filter
      (fun s => aggSuccessful (dictGet state.drafts s ""))).length = 3 := by
    simp [ALL_STYLES, STYLE_PROFOUND, STYLE_RHETORICAL, STYLE_STEADY,
      List.filter, hp, hr, hs]
  have hsum : agg_total_score state =
      dictGet state.scores "profound" 0 + dictGet state.scores "rhetorical" 0 +
        dictGet state.scores "steady" 0 := by
    simp [agg_total_score, ALL_STYLES, STYLE_PROFOUND, STYLE_RHETORICAL, STYLE_STEADY]
    ring
  have havg : (if 0 < agg_total_score state
      then (agg_total_score state : ℚ) / 3 else 0) =
      (agg_total_score state : ℚ) / 3 := by
    by_cases h : 0 < agg_total_score state
    · rw [if_pos h]
    · rw [if_neg h]
      have h0 : agg_total_score state = 0 := by
        rw [hsum] at h ⊢
        omega
      rw [h0]
      norm_num
  have hbest : agg_best_style state =
      if dictGet state.scores "profound" 0 < dictGet state.scores "rhetorical" 0 then
        (if dictGet state.scores "rhetorical" 0 < dictGet state.scores "steady" 0
         then "steady" else "rhetorical")
      else
        (if dictGet state.scores "profound" 0 < dictGet state.scores "steady" 0
         then "steady" else "profound") := by
    have h3 := pyMaxByKey_three (fun s => dictGet state.scores s 0)
      "profound" "rhetorical" "steady"
    simpa [agg_best_style, ALL_STYLES, STYLE_PROFOUND, STYLE_RHETORICAL,
      STYLE_STEADY] using h3
  have hagg : aggregator_node state =
      { errors := none, current_agent := some "aggregator",
        events :=
          [⟨"progress", "aggregator", "正在汇总所有生成结果...", none⟩,
           ⟨"end", "aggregator", "",
            some (.summary
              (if 0 < agg_total_score state
               then (agg_total_score state : ℚ) / 3 else 0)
              (agg_best_style state)
              (dictGet state.scores (agg_best_style state) 0))⟩] } := by
    simp only [aggregator_node, htid, hfilter, agg_total_score, agg_best_style]
    norm_num
  refine ⟨?_, hsum, ?_, ?_, ?_⟩
  · rw [hagg, havg]
  · rw [hbest]
    by_cases h1 : dictGet state.scores "profound" 0 < dictGet state.scores "rhetorical" 0 <;>
      by_cases h2 : dictGet state.scores "rhetorical" 0 < dictGet state.scores "steady" 0 <;>
      by_cases h3 : dictGet state.scores "profound" 0 < dictGet state.scores "steady" 0 <;>
      simp [h1, h2, h3] <;> decide
  · intro s hmem
    simp only [ALL_STYLES, STYLE_PROFOUND, STYLE_RHETORICAL, STYLE_STEADY,
      List.mem_cons, List.not_mem_nil, or_false] at hmem
    rw [hbest]
    by_cases h1 : dictGet state.scores "profound" 0 < dictGet state.scores "rhetorical" 0 <;>
      by_cases h2 : dictGet state.scores "rhetorical" 0 < dictGet state.scores "steady" 0 <;>
      by_cases h3 : dictGet state.scores "profound" 0 < dictGet state.scores "steady" 0 <;>
      rcases hmem with rfl | rfl | rfl <;>
      simp [h1, h2, h3] <;> omega
  · intro s hmem
    simp only [ALL_STYLES, STYLE_PROFOUND, STYLE_RHETORICAL, STYLE_STEADY,
      List.mem_cons, List.not_mem_nil, or_false] at hmem
    rw [hbest]
    by_cases h1 : dictGet state.scores "profound" 0 < dictGet state.scores "rhetorical" 0 <;>
      by_cases h2 : dictGet state.scores "rhetorical" 0 < dictGet state.scores "steady" 0 <;>
      by_cases h3 : dictGet state.scores "profound" 0 < dictGet state.scores "steady" 0 <;>
      rcases hmem with rfl | rfl | rfl <;>
      simp [h1, h2, h3] <;>
      intro keq <;> first | decide | omega

/-- Witness for C6 at the concrete scores 40 / 55 / 50: the mean is 145/3
(≈48.33) and the best branch is the 55-scoring rhetorical one. -/
theorem C6_full_success_witness :
    stateC6w.task_id = some 1 ∧
    (∀ s ∈ ALL_STYLES, aggSuccessful (dictGet stateC6w.drafts s "") = true) ∧
    (∀ s ∈ ALL_STYLES, 0 ≤ dictGet stateC6w.scores s 0) ∧
    (aggregator_node stateC6w).events =
      [⟨"progress", "aggregator", "正在汇总所有生成结果...", none⟩,
       ⟨"end", "aggregator", "",
        some (.summary ((agg_total_score stateC6w : ℚ) / 3) (agg_best_style stateC6w)
          (dictGet stateC6w.scores (agg_best_style stateC6w) 0))⟩] ∧
    agg_best_style stateC6w = "rhetorical" ∧
    dictGet stateC6w.scores (agg_best_style stateC6w) 0 = 55 ∧
    (agg_total_score stateC6w : ℚ) / 3 = 145 / 3 :=
  ⟨rfl, by decide, by decide,
   (C6_full_success stateC6w 1 rfl (by decide) (by decide)).1,
   by decide, by decide, by
     have h145 : agg_total_score stateC6w = 145 := by decide
     rw [h145]
     norm_num⟩

/-- A line with neither score pattern leaves the running score unchanged. -/
lemma gradeLineStep_no_match (s : Int) (line : String)
    (hz : zongfenScan (pyStrip line).data = none)
    (hb : bareScoreScan (pyStrip line).data = none) :
    gradeLineStep s line = s := by
  simp [gradeLineStep, hz, hb]

/-- Folding over lines none of which contains a score pattern is the
identity on the running score. -/
lemma gradeLinesFold_no_match (lines : List String) (init : Int)
    (h : ∀ line ∈ lines, zongfenScan (pyStrip line).data = none ∧
         bareScoreScan (pyStrip line).data = none) :
    lines.foldl gradeLineStep init = init := by
  induction lines generalizing init with
  | nil => rfl
  | cons l ls ih =>
    have hl := h l (by simp)
    simp only [List.foldl, gradeLineStep_no_match init l hl.1 hl.2]
    exact ih init (fun line hm => h line (by simp [hm]))

/-- Each line step preserves non-negativity of the running score. -/
lemma gradeLineStep_nonneg (s : Int) (line : String) (hs : 0 ≤ s) :
    0 ≤ gradeLineStep s line := by
  cases hz : zongfenScan (pyStrip line).data with
  | some n =>
    rw [show gradeLineStep s line = (n : Int) from by simp [gradeLineStep, hz]]
    exact Int.natCast_nonneg n
  | none =>
    cases hb : bareScoreScan (pyStrip line).data with
    | some n =>
      rw [show gradeLineStep s line =
          if s = 0 ∧ 0 ≤ (n : Int) ∧ (n : Int) ≤ 60 then (n : Int) else s from by
        simp [gradeLineStep, hz, hb]]
      split_ifs with h
      · exact Int.natCast_nonneg n
      · exact hs
    | none =>
      rw [gradeLineStep_no_match s line hz hb]
      exact hs

/-- The line fold of the grader parser never goes negative. -/
lemma gradeLinesFold_nonneg_aux (lines : List String) (init : Int) (h0 : 0 ≤ init) :
    0 ≤ lines.foldl gradeLineStep init := by
  induction lines generalizing init with
  | nil => exact h0
  | cons l ls ih => exact ih _ (gradeLineStep_nonneg init l h0)

/-- C7 (amended): the grader's score parser is a total function whose
line-by-line behaviour is: a `总分: N` match overwrites the running score
unconditionally; a bare `N分`/`N/60`-style match is taken only when the
running score is still 0 and `0 ≤ N ≤ 60`; a response with no recognizable
pattern on any line therefore yields 0 — the field's initial value, not
the mid-range default the claim promises; the running score never goes
negative, and only a final score above 60 (reachable only via a `总分`
match) is replaced by the default 45. -/
theorem C7_parse_fallback :
    (∀ response : String,
        (∀ line ∈ pySplitNewline response,
            zongfenScan (pyStrip line).data = none ∧
            bareScoreScan (pyStrip line).data = none) →
        parse_grader_score response = 0) ∧
    (∀ (s : Int) (line : String) (n : Nat),
        zongfenScan (pyStrip line).data = some n →
        gradeLineStep s line = (n : Int)) ∧
    (∀ (s : Int) (line : String) (n : Nat),
        zongfenScan (pyStrip line).data = none →
        bareScoreScan (pyStrip line).data = some n →
        gradeLineStep s line =
          if s = 0 ∧ 0 ≤ (n : Int) ∧ (n : Int) ≤ 60 then (n : Int) else s) ∧
    (∀ response : String,
        0 ≤ gradeLinesFold response ∧
        parse_grader_score response =
          if 60 < gradeLinesFold response then 45 else gradeLinesFold response) := by
  refine ⟨?_, ?_, ?_, ?_⟩
  · intro response h
    have h0 : gradeLinesFold response = 0 :=
      gradeLinesFold_no_match _ 0 h
    simp [parse_grader_score, h0]
  · intro s line n hz
    simp [gradeLineStep, hz]
  · intro s line n hz hb
    simp [gradeLineStep, hz, hb]
  · intro response
    have hnn : 0 ≤ gradeLinesFold response :=
      gradeLinesFold_nonneg_aux _ 0 le_rfl
    refine ⟨hnn, ?_⟩
    rw [parse_grader_score]
    by_cases h : 60 < gradeLinesFold response
    · rw [if_pos h, if_pos (Or.inr h)]
    · rw [if_neg h, if_neg ?_]
      rintro (hneg | hgt)
      · omega
      · exact h hgt

/-- C7 counterexample: a response with no recognizable score pattern
parses to the extreme score 0 — the initial value of the accumulator,
which passes the `[0, 60]` validation untouched — not to the fixed
mid-range default 45 the claim promises. -/
theorem C7_parse_counterexample :
    parse_grader_score "无法评分" = 0 ∧
    parse_grader_score "无法评分" ≠ 45 := by
  constructor <;> decide

/-- Witness for C7: the unparseable case, the `总分` precedence case and
the out-of-range replacement, all at concrete inputs. -/
theorem C7_parse_fallback_witness :
    (∀ line ∈ pySplitNewline "无法评分",
        zongfenScan (pyStrip line).data = none ∧
        bareScoreScan (pyStrip line).data = none) ∧
    parse_grader_score "无法评分" = 0 ∧
    zongfenScan (pyStrip "总分：88").data = some 88 ∧
    gradeLineStep 55 "总分：88" = (88 : Int) ∧
    zongfenScan (pyStrip "55分").data = none ∧
    bareScoreScan (pyStrip "55分").data = some 55 ∧
    gradeLineStep 0 "55分" =
      (if (0 : Int) = 0 ∧ 0 ≤ (55 : Int) ∧ (55 : Int) ≤ 60 then (55 : Int) else 0) ∧
    parse_grader_score "总分：88" = 45 :=
  ⟨by decide,
   C7_parse_fallback.1 "无法评分" (by decide),
   by decide,
   C7_parse_fallback.2.1 55 "总分：88" 88 (by decide),
   by decide, by decide,
   C7_parse_fallback.2.2.1 0 "55分" 55 (by decide) (by decide),
   (C7_parse_fallback.2.2.2 "总分：88").2.trans (by decide)⟩

/-- C8: in every non-forced (`counter < 3`), non-empty reviewer run whose
model outcome parses to `(action, comments)`, the returned revision count
is exactly the incoming count plus 1; an incomplete structure check
downgrades a parsed ACCEPT to REVISE; and at counter ≥ 2 a parsed REWRITE
is downgraded to REVISE. -/
theorem C8_audit_downgrade (style : String) (state : EssayState)
    (action comments : String)
    (hdraft : dictGet state.drafts style "" ≠ "")
    (hcount : dictGet state.revision_count style 0 < MAX_REVISION_LOOPS) :
    (reviewer_node style state (.ok (action, comments))).revision_count =
      dictGet state.revision_count style 0 + 1 ∧
    ((check_essay_structure (dictGet state.drafts style "")).is_complete = false →
      action = "ACCEPT" →
      (reviewer_node style state (.ok (action, comments))).decision = "REVISE") ∧
    (2 ≤ dictGet state.revision_count style 0 → action = "REWRITE" →
      (reviewer_node style state (.ok (action, comments))).decision = "REVISE") := by
  have hnot3 : ¬ (MAX_REVISION_LOOPS ≤ dictGet state.revision_count style 0) := by
    omega
  refine ⟨?_, ?_, ?_⟩
  · simp [reviewer_node, hdraft, hnot3]
  · intro hinc hact
    subst hact
    simp [reviewer_node, hdraft, hnot3, hinc]
  · intro h2 hact
    subst hact
    simp [reviewer_node, hdraft, hnot3, h2]

/-- Witness for C8: both downgrade rules and the increment at concrete
states (a structurally incomplete two-character draft, counters 0 and 2). -/
theorem C8_audit_downgrade_witness :
    dictGet stateC8a.drafts "steady" "" ≠ "" ∧
    dictGet stateC8a.revision_count "steady" 0 < MAX_REVISION_LOOPS ∧
    (check_essay_structure (dictGet stateC8a.drafts "steady" "")).is_complete = false ∧
    (reviewer_node "steady" stateC8a (.ok ("ACCEPT", "好"))).decision = "REVISE" ∧
    (reviewer_node "steady" stateC8a (.ok ("ACCEPT", "好"))).revision_count = 1 ∧
    (reviewer_node "steady" stateC8b (.ok ("REWRITE", "差"))).decision = "REVISE" ∧
    (reviewer_node "steady" stateC8b (.ok ("REWRITE", "差"))).revision_count = 3 :=
  ⟨by decide, by decide, by decide,
   (C8_audit_downgrade "steady" stateC8a "ACCEPT" "好" (by decide) (by decide)).2.1
     (by decide) rfl,
   ((C8_audit_downgrade "steady" stateC8a "ACCEPT" "好" (by decide) (by decide)).1).trans
     (by decide),
   (C8_audit_downgrade "steady" stateC8b "REWRITE" "差" (by decide) (by decide)).2.2
     (by decide) rfl,
   ((C8_audit_downgrade "steady" stateC8b "REWRITE" "差" (by decide) (by decide)).1).trans
     (by decide)⟩

/-- C1: whenever a style's revision count has reached the maximum (3) and
the draft is non-empty, the reviewer returns ACCEPT with the recorded
forced-acceptance rationale, leaves the revision count unchanged, and its
output is independent of the model outcome (the model is not consulted). -/
theorem C1_safety_valve (style : String) (state : EssayState)
    (o o' : Except String (String × String))
    (hdraft : dictGet state.drafts style "" ≠ "")
    (hcount : MAX_REVISION_LOOPS ≤ dictGet state.revision_count style 0) :
    (reviewer_node style state o).decision = "ACCEPT" ∧
    (reviewer_node style state o).comment =
      "已达到最大修订次数（" ++ toString MAX_REVISION_LOOPS ++ "轮），强制通过审核。" ∧
    (reviewer_node style state o).revision_count =
      dictGet state.revision_count style 0 ∧
    reviewer_node style state o = reviewer_node style state o' := by
  refine ⟨?_, ?_, ?_, ?_⟩ <;> simp [reviewer_node, hdraft, hcount]

/-- Witness for C1: a non-empty draft at counter 3 forces ACCEPT and the
output is the same for an adverse parsed REWRITE and for a raised
exception. -/
theorem C1_safety_valve_witness :
    dictGet stateC1w.drafts "profound" "" ≠ "" ∧
    MAX_REVISION_LOOPS ≤ dictGet stateC1w.revision_count "profound" 0 ∧
    (reviewer_node "profound" stateC1w (.ok ("REWRITE", "质量差"))).decision = "ACCEPT" ∧
    (reviewer_node "profound" stateC1w (.ok ("REWRITE", "质量差"))).revision_count = 3 ∧
    reviewer_node "profound" stateC1w (.ok ("REWRITE", "质量差")) =
      reviewer_node "profound" stateC1w (.error "boom") :=
  ⟨by decide, by decide,
   (C1_safety_valve "profound" stateC1w (.ok ("REWRITE", "质量差")) (.error "boom")
     (by decide) (by decide)).1,
   ((C1_safety_valve "profound" stateC1w (.ok ("REWRITE", "质量差")) (.error "boom")
     (by decide) (by decide)).2.2.1).trans (by decide),
   (C1_safety_valve "profound" stateC1w (.ok ("REWRITE", "质量差")) (.error "boom")
     (by decide) (by decide)).2.2.2⟩

/-- C10: when a style's draft is empty or absent, the reviewer returns
ACCEPT with the fixed comment `无内容可审核`, leaves the revision count
unchanged, appends exactly one error to the shared error list, never
consults the model, and the resulting stored decision routes that branch
to `accept` (its revision loop terminates). -/
theorem C10_empty_audit (style : String) (state : EssayState)
    (o o' : Except String (String × String))
    (hdraft : dictGet state.drafts style "" = "") :
    (reviewer_node style state o).decision = "ACCEPT" ∧
    (reviewer_node style state o).comment = "无内容可审核" ∧
    (reviewer_node style state o).revision_count =
      dictGet state.revision_count style 0 ∧
    (reviewer_node style state o).errors =
      ["Reviewer_" ++ style ++ ": No essay content to review"] ∧
    (state.errors ++ (reviewer_node style state o).errors).length =
      state.errors.length + 1 ∧
    reviewer_node style state o = reviewer_node style state o' ∧
    get_routing_decision
      { state with reviewer_decisions :=
          (merge_dicts (some state.reviewer_decisions)
            (some (dictSingle style (reviewer_node style state o).decision))) }
      style = "accept" := by
  have hdec : (reviewer_node style state o).decision = "ACCEPT" := by
    simp [reviewer_node, hdraft]
  have hup : pyUpper "ACCEPT" = "ACCEPT" := by decide
  refine ⟨hdec, ?_, ?_, ?_, ?_, ?_, ?_⟩
  · simp [reviewer_node, hdraft]
  · simp [reviewer_node, hdraft]
  · simp [reviewer_node, hdraft]
  · simp [reviewer_node, hdraft]
  · simp [reviewer_node, hdraft]
  · simp [get_routing_decision, dictGet, merge_dicts, dictSingle, hdec, hup]

/-- Witness for C10 at the empty state: the branch with no artifact passes
audit unconditionally, records one error, and ignores the model outcome. -/
theorem C10_empty_audit_witness :
    dictGet emptyState.drafts "profound" "" = "" ∧
    (reviewer_node "profound" emptyState (.ok ("REWRITE", "x"))).decision = "ACCEPT" ∧
    (reviewer_node "profound" emptyState (.ok ("REWRITE", "x"))).comment = "无内容可审核" ∧
    (reviewer_node "profound" emptyState (.ok ("REWRITE", "x"))).errors =
      ["Reviewer_" ++ "profound" ++ ": No essay content to review"] ∧
    reviewer_node "profound" emptyState (.ok ("REWRITE", "x")) =
      reviewer_node "profound" emptyState (.error "boom") :=
  ⟨rfl,
   (C10_empty_audit "profound" emptyState (.ok ("REWRITE", "x")) (.error "boom") rfl).1,
   (C10_empty_audit "profound" emptyState (.ok ("REWRITE", "x")) (.error "boom") rfl).2.1,
   (C10_empty_audit "profound" emptyState (.ok ("REWRITE", "x")) (.error "boom") rfl).2.2.2.1,
   (C10_empty_audit "profound" emptyState (.ok ("REWRITE", "x")) (.error "boom") rfl).2.2.2.2.2.1⟩

/-- C9 counterexample: with the lowercase string `"rewrite"` stored as the
decision, the router returns `"rewrite"` although the stored decision is
not the value `REWRITE` — `.upper()` normalises the stored value first, so
"returns rewrite exactly when the stored decision is REWRITE" fails as
stated (under the claim's own reading, a lowercase `"rewrite"` is an
unrecognized value and should route to accept). -/
theorem C9_router_counterexample :
    get_routing_decision stateC9x "profound" = "rewrite" ∧
    stateC9x.reviewer_decisions "profound" = some "rewrite" ∧
    ("rewrite" : String) ≠ "REWRITE" := by
  refine ⟨by decide, by decide, by decide⟩

/-- C9 (amended): the router returns `"rewrite"` exactly when the stored
decision (defaulting to `ACCEPT` when missing) upper-cases to `REWRITE`,
`"revise"` exactly when it upper-cases to `REVISE`, and `"accept"`
otherwise — in particular for a missing decision; and the graph wires
`accept` to the aggregator join, `revise` to that style's reviser and
`rewrite` to that style's writer. -/
theorem C9_router (state : EssayState) (style : String) :
    (get_routing_decision state style = "rewrite" ↔
      pyUpper (dictGet state.reviewer_decisions style "ACCEPT") = "REWRITE") ∧
    (get_routing_decision state style = "revise" ↔
      pyUpper (dictGet state.reviewer_decisions style "ACCEPT") = "REVISE") ∧
    (get_routing_decision state style = "accept" ↔
      (pyUpper (dictGet state.reviewer_decisions style "ACCEPT") ≠ "REWRITE" ∧
       pyUpper (dictGet state.reviewer_decisions style "ACCEPT") ≠ "REVISE")) ∧
    (state.reviewer_decisions style = none →
      get_routing_decision state style = "accept") ∧
    (∀ s ∈ ALL_STYLES,
      routing_map s "accept" = some "aggregator" ∧
      routing_map s "revise" = some ("reviser_" ++ s) ∧
      routing_map s "rewrite" = some ("writer_" ++ s)) := by
  refine ⟨?_, ?_, ?_, ?_, by decide⟩
  · rw [get_routing_decision]
    split_ifs with h1 h2 <;> simp_all
  · rw [get_routing_decision]
    split_ifs with h1 h2 <;> simp_all
  · rw [get_routing_decision]
    split_ifs with h1 h2 <;> simp_all
  · intro hnone
    simp [get_routing_decision, dictGet, hnone,
      show pyUpper "ACCEPT" = "ACCEPT" from by decide]

/-- Witness for C9: a state with no stored decision for `profound` routes
it to accept. -/
theorem C9_router_witness :
    stateC9w.reviewer_decisions "profound" = none ∧
    get_routing_decision stateC9w "profound" = "accept" :=
  ⟨by decide, (C9_router stateC9w "profound").2.2.2.1 (by decide)⟩
